import Mathlib

/-!
Verification of the token-router transaction-construction layer
(`src/solana/ts/src/tokenRouter/index.ts`).

The TypeScript source derives Solana addresses and composes instruction
account sets.  Program-derived addresses (`PublicKey.findProgramAddressSync`)
and the Keccak-256 digest are modelled as free constructors: the derivation
is an address oracle whose output is determined (and distinguished) by its
inputs, which is exactly the byte-exactness contract the spec describes.
On-chain reads are modelled as lookup functions collected in a `Chain`
record; fallible operations return `Except Err`.  Collaborator programs
that live in other modules of the repository are passed in as oracle
functions (`CollabOracles`), mirroring the spec's treatment of them as
address/seed oracles.
-/

namespace TokenRouter

mutual

/-- A Solana public key: either a concrete base58-encoded key, or a
program-derived address obtained from an ordered seed list and a program id
(`PublicKey.findProgramAddressSync(seeds, programId)[0]`).  The derivation
is modelled as a free constructor, i.e. an injective address oracle. -/
inductive Pubkey where
  | base58 (s : String)
  | pda (seeds : List Seed) (programId : Pubkey)

/-- One seed buffer of a program-derived address: a literal string tag
(`Buffer.from("...")`), the 32 raw bytes of a public key (`key.toBuffer()`),
or a Keccak-256 digest of an input byte sequence (`hasher.digest()`, the
digest modelled as a free constructor over its input bytes). -/
inductive Seed where
  | str (s : String)
  | key (k : Pubkey)
  | kec (input : List Nat)

end

/-- SPL token program id (`splToken.TOKEN_PROGRAM_ID`). -/
def TOKEN_PROGRAM_ID : Pubkey := .base58 "TokenkegQfeZyiNwAJbNbGKPFXCWuBvf9Ss623VQ5DA"

/-- SPL associated-token-account program id
(`splToken.ASSOCIATED_TOKEN_PROGRAM_ID`). -/
def ASSOCIATED_TOKEN_PROGRAM_ID : Pubkey :=
  .base58 "ATokenGPvbdGVxr1b2hvZbsiqW5xWH25efTNsLJA8knL"

/-- System program id (`SystemProgram.programId`). -/
def SYSTEM_PROGRAM_ID : Pubkey := .base58 "11111111111111111111111111111111"

/-- Rent sysvar (`SYSVAR_RENT_PUBKEY`). -/
def SYSVAR_RENT : Pubkey := .base58 "SysvarRent111111111111111111111111111111111"

/-- Clock sysvar (`SYSVAR_CLOCK_PUBKEY`). -/
def SYSVAR_CLOCK : Pubkey := .base58 "SysvarC1ock11111111111111111111111111111111"

/-- The localnet token-router program id (`localnet()` in the source). -/
def localnet : String := "TokenRouter11111111111111111111111111111111"

/-- The testnet token-router program id (`testnet()` in the source). -/
def testnet : String := "tD8RmtdcV7bzBeuFgyrFc8wvayj988ChccEzRQzo6md"

/-- Fixed-width big-endian byte encoding of a natural number. -/
def beBytes (width n : Nat) : List Nat :=
  (List.range width).map (fun i => n / 256 ^ (width - 1 - i) % 256)

/-- Modelled from the spec: `uint64ToBN` (defined in
`src/solana/ts/src/common`, which is not included in `src/`) composed with
BN `toBuffer("be", 8)` &mdash; the spec (&sect;4.2, &sect;6) fixes this to the 8-byte
big-endian encoding of a u64 amount. -/
def uint64ToBeBytes (n : Nat) : List Nat := beBytes 8 n

/-- `Buffer.writeUInt16BE`: 2-byte big-endian encoding of a u16. -/
def writeUInt16BE (n : Nat) : List Nat := beBytes 2 n

/-- `Buffer.from(ns)` for a JavaScript number array: each entry is coerced
to a byte. -/
def bufferFromArray (ns : List Nat) : List Nat := ns.map (fun b => b % 256)

/-- The argument record of `prepareMarketOrder`
(`PrepareMarketOrderArgs` in the source). -/
structure PrepareMarketOrderArgs where
  amountIn : Nat
  minAmountOut : Option Nat
  targetChain : Nat
  redeemer : List Nat
  redeemerMessage : List Nat

/-- An incremental Keccak-256 hasher (`new Keccak(256)` from the sha3
package): the state is the concatenation of all bytes fed to `update`. -/
structure Keccak where
  acc : List Nat

/-- A fresh hasher with empty input. -/
def Keccak.empty : Keccak := ⟨[]⟩

/-- `hasher.update(bytes)`: append the bytes to the pending input. -/
def Keccak.update (h : Keccak) (bs : List Nat) : Keccak := ⟨h.acc ++ bs⟩

/-- `hasher.digest()` used as a seed buffer: the Keccak-256 digest of the
accumulated input, modelled as a free constructor over that input. -/
def Keccak.digest (h : Keccak) : Seed := .kec h.acc

/-- Errors thrown by the SDK methods (`throw new Error(...)` in the source,
plus the generic account-fetch failure raised by the anchor/spl fetchers). -/
inductive Err where
  | orderNotFound
  | invalidTargetChain
  | invalidRouterEndpoint
  | unsupportedNetwork
  | accountNotFound
deriving DecidableEq

/-- Modelled from the spec: the fields of the on-chain `PreparedOrder`
record (its type lives in `src/solana/ts/src/tokenRouter/state`, which is
not included in `src/`).  Per spec &sect;3 the core reads exactly
`preparedBy`, `orderSender`, `refundToken` and `targetChain` from a fetched
order. -/
structure PreparedOrderInfo where
  preparedBy : Pubkey
  orderSender : Pubkey
  refundToken : Pubkey
  targetChain : Nat

/-- Modelled from the spec: the discriminated protocol variant of a router
endpoint record (&sect;3 `NetworkEndpointInfo`): either the CCTP variant
carrying a domain, or some other variant. -/
inductive EndpointProtocol where
  | cctp (domain : Nat)
  | other

/-- The slice of a router-endpoint record consumed here: its protocol. -/
structure RouterEndpointInfo where
  protocol : EndpointProtocol

/-- The slice of an SPL token account consumed here: its owner
(`splToken.getAccount(...).owner`). -/
structure TokenAccount where
  owner : Pubkey

/-- The on-chain state visible to the SDK, as lookup functions: a missing
record is `none` (the corresponding fetch throws). -/
structure Chain where
  preparedOrders : Pubkey → Option PreparedOrderInfo
  routerEndpoints : Pubkey → Option RouterEndpointInfo
  tokenAccounts : Pubkey → Option TokenAccount

/-- Modelled from the spec: `Custodian.address(programId)` (defined in
`src/solana/ts/src/tokenRouter/state`, not included in `src/`) derives the
custodian account from the single literal seed `"custodian"` under the
token-router program id (spec &sect;4.1, &sect;8). -/
def custodianAddress (programId : Pubkey) : Pubkey :=
  .pda [.str "custodian"] programId

/-- `preparedCustodyTokenAddress`: seeds `["prepared-custody", account]`
under the token-router program id. -/
def preparedCustodyTokenAddress (programId preparedAccount : Pubkey) : Pubkey :=
  .pda [.str "prepared-custody", .key preparedAccount] programId

/-- `splToken.getAssociatedTokenAddressSync(mint, owner, allowOwnerOffCurve)`:
the standard associated-token-account derivation, a program-derived address
under the associated-token program with seeds
`[owner, TOKEN_PROGRAM_ID, mint]`.  The curve check skipped by
`allowOwnerOffCurve` does not affect the derived address. -/
def getAssociatedTokenAddressSync (mint owner : Pubkey)
    (_allowOwnerOffCurve : Bool) : Pubkey :=
  .pda [.key owner, .key TOKEN_PROGRAM_ID, .key mint] ASSOCIATED_TOKEN_PROGRAM_ID

/-- `cctpMintRecipientAddress()`: the associated token account of the mint
owned by the custodian. -/
def cctpMintRecipientAddress (programId mint : Pubkey) : Pubkey :=
  getAssociatedTokenAddressSync mint (custodianAddress programId) true

/-- `transferAuthorityAddress(preparedOrder, args)`: hash the order
parameters with an incremental Keccak-256 hasher exactly as the source
does, then derive the address from seeds
`["transfer-authority", preparedOrder, digest]`. -/
def transferAuthorityAddress (programId preparedOrder : Pubkey)
    (args : PrepareMarketOrderArgs) : Pubkey :=
  let hasher := Keccak.empty
  let hasher := hasher.update (uint64ToBeBytes args.amountIn)
  let hasher :=
    match args.minAmountOut with
    | none => hasher
    | some m => hasher.update (uint64ToBeBytes m)
  let hasher := hasher.update (writeUInt16BE args.targetChain)
  let hasher := hasher.update (bufferFromArray args.redeemer)
  let hasher := hasher.update args.redeemerMessage
  .pda [.str "transfer-authority", .key preparedOrder, hasher.digest] programId

/-- `upgradeManagerProgram()`: switch on the token-router program id;
testnet and localnet map to fixed upgrade-manager program ids, anything
else throws `unsupported network`. -/
def upgradeManagerProgram (programId : String) : Except Err Pubkey :=
  if programId = testnet then
    .ok (.base58 "ucdP9ktgrXgEUnn6roqD2SfdGMR2JSiWHUKv23oXwxt")
  else if programId = localnet then
    .ok (.base58 "UpgradeManager11111111111111111111111111111")
  else
    .error .unsupportedNetwork

/-- `tokenMessengerMinterProgram()`: a fixed program id, independent of the
network discriminant. -/
def tokenMessengerMinterProgram (_programId : String) : Pubkey :=
  .base58 "CCTPiPYPc6AsJuwueEnWgSgucamXDZwBd53dQ11YiKX3"

/-- `messageTransmitterProgram()`: a fixed program id, independent of the
network discriminant. -/
def messageTransmitterProgram (_programId : String) : Pubkey :=
  .base58 "CCTPmbSD7gX1bxKPAmg77w8oFzNFpaQiQUWD43TKaecd"

/-- Modelled from the spec: `matchingEngineSdk.localnet()` (the matching
engine module `src/solana/ts/src/matchingEngine` is not included in
`src/`); per the network table of spec &sect;4.3/&sect;6 it is the
localnet matching-engine program id, distinct per environment. -/
def matchingEngineLocalnetId : Pubkey := .base58 "matching-engine-localnet-id"

/-- Modelled from the spec: `matchingEngineSdk.testnet()` (the matching
engine module `src/solana/ts/src/matchingEngine` is not included in
`src/`); per the network table of spec &sect;4.3/&sect;6 it is the
testnet matching-engine program id, distinct per environment. -/
def matchingEngineTestnetId : Pubkey := .base58 "matching-engine-testnet-id"

/-- `matchingEngineProgram()`: switch on the token-router program id;
testnet and localnet pick the corresponding matching-engine environment,
anything else throws `unsupported network`.  The result is the matching
engine program id the constructed client is bound to. -/
def matchingEngineProgram (programId : String) : Except Err Pubkey :=
  if programId = testnet then .ok matchingEngineTestnetId
  else if programId = localnet then .ok matchingEngineLocalnetId
  else .error .unsupportedNetwork

/-- `coreBridgeProgramId()`: switch on the token-router program id;
testnet and localnet map to fixed core-bridge program ids, anything else
throws `unsupported network`. -/
def coreBridgeProgramId (programId : String) : Except Err Pubkey :=
  if programId = testnet then
    .ok (.base58 "3u8hJUVTA4jH1wYAyUur7FFZVQ8H635K3tSHHF4ssjQ5")
  else if programId = localnet then
    .ok (.base58 "worm2ZoG2kUd4vFXhvjh93UUH596ayRfgQ2MgjNMTth")
  else
    .error .unsupportedNetwork

/-- The record returned by `publishMessageAccounts`. -/
structure PublishMessageAccounts where
  coreBridgeConfig : Pubkey
  coreEmitterSequence : Pubkey
  coreFeeCollector : Pubkey
  coreBridgeProgram : Pubkey

/-- `publishMessageAccounts(emitter)`: core-bridge config, emitter sequence
and fee collector, all derived under the network-resolved core-bridge
program id. -/
def publishMessageAccounts (programId : String) (emitter : Pubkey) :
    Except Err PublishMessageAccounts := do
  let coreBridgeProgram ← coreBridgeProgramId programId
  .ok { coreBridgeConfig := .pda [.str "Bridge"] coreBridgeProgram
        coreEmitterSequence := .pda [.str "Sequence", .key emitter] coreBridgeProgram
        coreFeeCollector := .pda [.str "fee_collector"] coreBridgeProgram
        coreBridgeProgram := coreBridgeProgram }

/-- `checkedCustodianComposite(addr?)`: the supplied custodian address, or
the derived one. -/
def checkedCustodianComposite (programId : Pubkey) (addr : Option Pubkey) : Pubkey :=
  addr.getD (custodianAddress programId)

/-- The record returned by the token-messenger-minter collaborator's
`depositForBurnWithCallerAccounts(mint, destinationDomain)`. -/
structure BurnAccounts where
  senderAuthority : Pubkey
  messageTransmitterConfig : Pubkey
  tokenMessenger : Pubkey
  remoteTokenMessenger : Pubkey
  tokenMinter : Pubkey
  localToken : Pubkey
  tokenMessengerMinterEventAuthority : Pubkey
  messageTransmitterProgram : Pubkey
  tokenMessengerMinterProgram : Pubkey

/-- Address-derivation functions of collaborator modules that are not part
of `src/` (the matching-engine client and `src/solana/ts/src/common`),
passed in as oracles: the theorems hold for every implementation, which is
how the spec treats these collaborators (address oracles, &sect;1/&sect;2).
`routerEndpointAddress` takes the matching-engine program id and a chain
id; `coreMessageAddress`/`cctpMessageAddress` take the token-router program
id and the prepared-order address; `depositForBurnWithCallerAccounts`
takes the mint and the destination domain. -/
structure CollabOracles where
  routerEndpointAddress : Pubkey → Nat → Pubkey
  coreMessageAddress : Pubkey → Pubkey → Pubkey
  cctpMessageAddress : Pubkey → Pubkey → Pubkey
  depositForBurnWithCallerAccounts : Pubkey → Nat → BurnAccounts

/-- `splToken.createApproveInstruction(account, delegate, owner, amount)`:
delegate `amount` tokens of `source` to `delegate`, signed by `owner`. -/
structure ApproveIx where
  source : Pubkey
  delegate : Pubkey
  owner : Pubkey
  amount : Nat

/-- The `senderTokenAuthority ??= (await getAccount(senderToken)).owner`
step of `approveTransferAuthorityIx`: the caller-supplied authority, or the
fetched owner of the sender token account. -/
def resolveSenderTokenAuthority (chain : Chain) (senderToken : Pubkey)
    (senderTokenAuthority : Option Pubkey) : Except Err Pubkey :=
  match senderTokenAuthority with
  | some a => .ok a
  | none =>
    match chain.tokenAccounts senderToken with
    | some acct => .ok acct.owner
    | none => .error .accountNotFound

/-- `approveTransferAuthorityIx(accounts, args)`: resolve the delegating
owner, compute the transfer authority, and return it with the approve
instruction for `amountIn`. -/
def approveTransferAuthorityIx (programId : String) (chain : Chain)
    (preparedOrder senderToken : Pubkey) (senderTokenAuthority : Option Pubkey)
    (args : PrepareMarketOrderArgs) : Except Err (Pubkey × ApproveIx) := do
  let owner ← resolveSenderTokenAuthority chain senderToken senderTokenAuthority
  let transferAuthority := transferAuthorityAddress (.base58 programId) preparedOrder args
  .ok (transferAuthority,
    { source := senderToken
      delegate := transferAuthority
      owner := owner
      amount := args.amountIn })

/-- The account set of the `prepareMarketOrder` instruction. -/
structure PrepareMarketOrderAccounts where
  payer : Pubkey
  custodian : Pubkey
  programTransferAuthority : Option Pubkey
  sender : Option Pubkey
  preparedOrder : Pubkey
  senderToken : Pubkey
  refundToken : Pubkey
  preparedCustodyToken : Pubkey
  usdc : Pubkey
  tokenProgram : Pubkey
  systemProgram : Pubkey

/-- The `prepareMarketOrder` instruction: its account set and its argument
payload. -/
structure PrepareMarketOrderIx where
  accounts : PrepareMarketOrderAccounts
  args : PrepareMarketOrderArgs

/-- `prepareMarketOrderIx(accounts, args)`.  Optional inputs are `Option`;
the three-state TypeScript inputs (`PublicKey | null | undefined`) are
`Option (Option Pubkey)` (outer `none` = not supplied, inner `none` =
explicit null).  Returns the optional approve instruction and the prepare
instruction, as the source does. -/
def prepareMarketOrderIx (programId : String) (mint : Pubkey) (chain : Chain)
    (payer preparedOrder senderToken : Pubkey)
    (senderTokenAuthority refundToken : Option Pubkey)
    (programTransferAuthority sender : Option (Option Pubkey))
    (useTransferAuthority : Option Bool)
    (args : PrepareMarketOrderArgs) :
    Except Err (Option ApproveIx × PrepareMarketOrderIx) := do
  let refundToken := refundToken.getD senderToken
  let useTransferAuthority := useTransferAuthority.getD true
  let sender : Option Pubkey := sender.getD none
  let (programTransferAuthority, approveIx) ←
    match programTransferAuthority with
    | some pta => pure ((pta, none) : Option Pubkey × Option ApproveIx)
    | none =>
      if useTransferAuthority then do
        let r ← approveTransferAuthorityIx programId chain preparedOrder
          senderToken senderTokenAuthority args
        pure (some r.1, some r.2)
      else
        pure (none, none)
  .ok (approveIx,
    { accounts :=
        { payer := payer
          custodian := checkedCustodianComposite (.base58 programId) none
          programTransferAuthority := programTransferAuthority
          sender := sender
          preparedOrder := preparedOrder
          senderToken := senderToken
          refundToken := refundToken
          preparedCustodyToken := preparedCustodyTokenAddress (.base58 programId) preparedOrder
          usdc := mint
          tokenProgram := TOKEN_PROGRAM_ID
          systemProgram := SYSTEM_PROGRAM_ID }
      args := args })

/-- The account set of the `closePreparedOrder` instruction. -/
structure ClosePreparedOrderAccounts where
  preparedBy : Pubkey
  custodian : Pubkey
  orderSender : Pubkey
  preparedOrder : Pubkey
  refundToken : Pubkey
  preparedCustodyToken : Pubkey
  tokenProgram : Pubkey

/-- `closePreparedOrderIx(accounts)`: if any of `preparedBy`,
`orderSender`, `refundToken` is not supplied, fetch the prepared order and
fill exactly the missing ones from its stored fields. -/
def closePreparedOrderIx (programId : String) (chain : Chain)
    (preparedOrder : Pubkey)
    (preparedBy orderSender refundToken : Option Pubkey) :
    Except Err ClosePreparedOrderAccounts := do
  let (preparedBy, orderSender, refundToken) ←
    match preparedBy, orderSender, refundToken with
    | some pb, some os, some rt => pure ((pb, os, rt) : Pubkey × Pubkey × Pubkey)
    | pb, os, rt =>
      match chain.preparedOrders preparedOrder with
      | none => Except.error Err.accountNotFound
      | some info =>
        pure (pb.getD info.preparedBy, os.getD info.orderSender, rt.getD info.refundToken)
  .ok { preparedBy := preparedBy
        custodian := checkedCustodianComposite (.base58 programId) none
        orderSender := orderSender
        preparedOrder := preparedOrder
        refundToken := refundToken
        preparedCustodyToken := preparedCustodyTokenAddress (.base58 programId) preparedOrder
        tokenProgram := TOKEN_PROGRAM_ID }

/-- The account set of the `consumePreparedFill` instruction. -/
structure ConsumePreparedFillAccounts where
  redeemer : Pubkey
  beneficiary : Pubkey
  preparedFill : Pubkey
  dstToken : Pubkey
  preparedCustodyToken : Pubkey
  tokenProgram : Pubkey

/-- `consumePreparedFillIx(accounts)`: all accounts are required caller
inputs; the source performs no on-chain read (this embedding accordingly
takes no `Chain`). -/
def consumePreparedFillIx (programId : String)
    (preparedFill redeemer dstToken beneficiary : Pubkey) :
    ConsumePreparedFillAccounts :=
  { redeemer := redeemer
    beneficiary := beneficiary
    preparedFill := preparedFill
    dstToken := dstToken
    preparedCustodyToken := preparedCustodyTokenAddress (.base58 programId) preparedFill
    tokenProgram := TOKEN_PROGRAM_ID }

/-- The first block of `placeMarketOrderCctpIx`: if `preparedBy` or
`targetChain` is not supplied, fetch the prepared order (failing with
`orderNotFound` when absent), reject an unrecognized stored chain id with
`invalidTargetChain`, and fill the missing values from the record. -/
def resolveOrderFields (chain : Chain) (isChainId : Nat → Bool)
    (preparedOrder : Pubkey) (preparedBy : Option Pubkey)
    (targetChain : Option Nat) : Except Err (Pubkey × Nat) :=
  match preparedBy, targetChain with
  | some pb, some tc => .ok (pb, tc)
  | pb, tc =>
    match chain.preparedOrders preparedOrder with
    | none => .error .orderNotFound
    | some info =>
      if !(isChainId info.targetChain) then .error .invalidTargetChain
      else .ok (pb.getD info.preparedBy, tc.getD info.targetChain)

/-- The `destinationDomain` resolution block of `placeMarketOrderCctpIx`:
the caller-supplied domain, or the CCTP domain read from the router
endpoint's protocol info, failing with `invalidRouterEndpoint` when the
protocol is not the CCTP variant. -/
def resolveDestinationDomain (chain : Chain) (routerEndpoint : Pubkey)
    (destinationDomain : Option Nat) : Except Err Nat :=
  match destinationDomain with
  | some d => .ok d
  | none =>
    match chain.routerEndpoints routerEndpoint with
    | none => .error .accountNotFound
    | some info =>
      match info.protocol with
      | .cctp domain => .ok domain
      | .other => .error .invalidRouterEndpoint

/-- The account set of the `placeMarketOrderCctp` instruction. -/
structure PlaceMarketOrderCctpAccounts where
  payer : Pubkey
  preparedBy : Pubkey
  custodian : Pubkey
  preparedOrder : Pubkey
  mint : Pubkey
  preparedCustodyToken : Pubkey
  routerEndpoint : Pubkey
  coreBridgeConfig : Pubkey
  coreMessage : Pubkey
  cctpMessage : Pubkey
  coreEmitterSequence : Pubkey
  coreFeeCollector : Pubkey
  tokenMessengerMinterSenderAuthority : Pubkey
  messageTransmitterConfig : Pubkey
  tokenMessenger : Pubkey
  remoteTokenMessenger : Pubkey
  tokenMinter : Pubkey
  localToken : Pubkey
  tokenMessengerMinterEventAuthority : Pubkey
  coreBridgeProgram : Pubkey
  tokenMessengerMinterProgram : Pubkey
  messageTransmitterProgram : Pubkey
  tokenProgram : Pubkey
  systemProgram : Pubkey
  rent : Pubkey
  clock : Pubkey

/-- `placeMarketOrderCctpIx(accounts, args)`: resolve `preparedBy` and
`targetChain` (with on-chain fallback), resolve the matching-engine
environment, default the router endpoint from the target chain, resolve
the destination domain, compose the burn accounts keyed by
(mint, destinationDomain), and assemble the full account set. -/
def placeMarketOrderCctpIx (programId : String) (mint : Pubkey)
    (collab : CollabOracles) (chain : Chain) (isChainId : Nat → Bool)
    (payer preparedOrder : Pubkey)
    (preparedBy routerEndpoint : Option Pubkey)
    (targetChain destinationDomain : Option Nat) :
    Except Err PlaceMarketOrderCctpAccounts := do
  let (preparedBy, targetChain) ←
    resolveOrderFields chain isChainId preparedOrder preparedBy targetChain
  let matchingEngine ← matchingEngineProgram programId
  let routerEndpoint :=
    routerEndpoint.getD (collab.routerEndpointAddress matchingEngine targetChain)
  let coreMessage := collab.coreMessageAddress (.base58 programId) preparedOrder
  let cctpMessage := collab.cctpMessageAddress (.base58 programId) preparedOrder
  let destinationDomain ← resolveDestinationDomain chain routerEndpoint destinationDomain
  let burn := collab.depositForBurnWithCallerAccounts mint destinationDomain
  let custodian := custodianAddress (.base58 programId)
  let pub ← publishMessageAccounts programId custodian
  .ok { payer := payer
        preparedBy := preparedBy
        custodian := checkedCustodianComposite (.base58 programId) none
        preparedOrder := preparedOrder
        mint := mint
        preparedCustodyToken := preparedCustodyTokenAddress (.base58 programId) preparedOrder
        routerEndpoint := routerEndpoint
        coreBridgeConfig := pub.coreBridgeConfig
        coreMessage := coreMessage
        cctpMessage := cctpMessage
        coreEmitterSequence := pub.coreEmitterSequence
        coreFeeCollector := pub.coreFeeCollector
        tokenMessengerMinterSenderAuthority := burn.senderAuthority
        messageTransmitterConfig := burn.messageTransmitterConfig
        tokenMessenger := burn.tokenMessenger
        remoteTokenMessenger := burn.remoteTokenMessenger
        tokenMinter := burn.tokenMinter
        localToken := burn.localToken
        tokenMessengerMinterEventAuthority := burn.tokenMessengerMinterEventAuthority
        coreBridgeProgram := pub.coreBridgeProgram
        tokenMessengerMinterProgram := burn.tokenMessengerMinterProgram
        messageTransmitterProgram := burn.messageTransmitterProgram
        tokenProgram := TOKEN_PROGRAM_ID
        systemProgram := SYSTEM_PROGRAM_ID
        rent := SYSVAR_RENT
        clock := SYSVAR_CLOCK }

/-- The burn-account slice of a composed `placeMarketOrderCctp` account
set, for comparison with the token-messenger-minter oracle's output. -/
def burnPart (a : PlaceMarketOrderCctpAccounts) : BurnAccounts :=
  { senderAuthority := a.tokenMessengerMinterSenderAuthority
    messageTransmitterConfig := a.messageTransmitterConfig
    tokenMessenger := a.tokenMessenger
    remoteTokenMessenger := a.remoteTokenMessenger
    tokenMinter := a.tokenMinter
    localToken := a.localToken
    tokenMessengerMinterEventAuthority := a.tokenMessengerMinterEventAuthority
    messageTransmitterProgram := a.messageTransmitterProgram
    tokenMessengerMinterProgram := a.tokenMessengerMinterProgram }

/-- Follows the spec's words (&sect;4.2): the digest input is, in strict
order, `amountIn` as 8-byte big-endian, then `minAmountOut` as 8-byte
big-endian only if present (absent contributes zero bytes), then
`targetChain` as 2-byte big-endian, then the redeemer's raw 32 bytes, then
the raw `redeemerMessage` bytes. -/
def specDigestInput (args : PrepareMarketOrderArgs) : List Nat :=
  uint64ToBeBytes args.amountIn
    ++ (match args.minAmountOut with
        | none => []
        | some m => uint64ToBeBytes m)
    ++ writeUInt16BE args.targetChain
    ++ args.redeemer
    ++ args.redeemerMessage

/-- Follows the spec's words (&sect;8): the standard associated-token-account
derivation for a (mint, owner) pair. -/
def specAssociatedTokenAddress (mint owner : Pubkey) : Pubkey :=
  .pda [.key owner, .key TOKEN_PROGRAM_ID, .key mint] ASSOCIATED_TOKEN_PROGRAM_ID

/-- Coercing a list of in-range bytes is the identity. -/
theorem bufferFromArray_of_bytes (l : List Nat) (h : ∀ b ∈ l, b < 256) :
    bufferFromArray l = l := by
  unfold bufferFromArray
  calc l.map (fun b => b % 256) = l.map id :=
        List.map_congr_left (fun b hb => Nat.mod_eq_of_lt (h b hb))
    _ = l := List.map_id l

/-- Fixed-width big-endian encodings have that width. -/
theorem beBytes_length (width n : Nat) : (beBytes width n).length = width := by
  simp [beBytes]

/-- C1: for every `PrepareMarketOrderArgs` value (with byte-valued redeemer
entries, 32 of them) and every prepared-order address,
`transferAuthorityAddress` derives its address from the seeds
`["transfer-authority", preparedOrder, D]` where `D` is the Keccak-256
digest of, in strict order: `amountIn` as 8-byte big-endian, then
`minAmountOut` as 8-byte big-endian only when present (absent contributes
zero bytes), then `targetChain` as 2-byte big-endian, then the redeemer's
raw 32 bytes, then the `redeemerMessage` bytes. -/
theorem transferAuthority_matches_spec_digest (programId preparedOrder : Pubkey)
    (args : PrepareMarketOrderArgs)
    (hbytes : ∀ b ∈ args.redeemer, b < 256)
    (_hlen : args.redeemer.length = 32) :
    transferAuthorityAddress programId preparedOrder args =
      .pda [.str "transfer-authority", .key preparedOrder, .kec (specDigestInput args)]
        programId := by
  have hid := bufferFromArray_of_bytes args.redeemer hbytes
  unfold transferAuthorityAddress specDigestInput Keccak.empty Keccak.update Keccak.digest
  cases h : args.minAmountOut <;> simp [h, hid, List.append_assoc]

/-- C1 witness: the digest/seed characterization evaluated at a concrete
argument record. -/
theorem transferAuthority_matches_spec_digest_witness :
    transferAuthorityAddress (.base58 "p") (.base58 "o")
        ⟨1, some 2, 3, List.replicate 32 0, [7]⟩ =
      .pda [.str "transfer-authority", .key (.base58 "o"),
        .kec (specDigestInput ⟨1, some 2, 3, List.replicate 32 0, [7]⟩)]
        (.base58 "p") :=
  transferAuthority_matches_spec_digest (.base58 "p") (.base58 "o")
    ⟨1, some 2, 3, List.replicate 32 0, [7]⟩ (by decide) (by simp)

/-- C2: two argument records identical except that one has
`minAmountOut = some m` and the other has `minAmountOut = none` yield two
different transfer-authority addresses: the presence of `minAmountOut`
changes the digest input (by eight bytes) and hence the derived address. -/
theorem minAmountOut_presence_changes_transferAuthority
    (programId preparedOrder : Pubkey) (args : PrepareMarketOrderArgs) (m : Nat) :
    transferAuthorityAddress programId preparedOrder { args with minAmountOut := some m } ≠
      transferAuthorityAddress programId preparedOrder { args with minAmountOut := none } := by
  intro h
  unfold transferAuthorityAddress Keccak.empty Keccak.update Keccak.digest at h
  injection h with hseeds hprog
  injection hseeds with h1 hrest
  injection hrest with h2 hrest2
  injection hrest2 with h3 hnil
  injection h3 with hkec
  apply_fun List.length at hkec
  simp [uint64ToBeBytes, writeUInt16BE, bufferFromArray, beBytes] at hkec

/-- C9: `cctpMintRecipientAddress` is the associated-token-account address
for the mint and the custodian derived from the program id via the seed
`"custodian"`, under the standard associated-account derivation. -/
theorem cctpMintRecipient_matches_standard_ata (programId mint : Pubkey) :
    cctpMintRecipientAddress programId mint =
      specAssociatedTokenAddress mint (Pubkey.pda [.str "custodian"] programId) := rfl

/-- C5: a program identity outside the fixed set {localnet, testnet} makes
every network-dependent resolution (upgrade manager, matching engine, core
bridge) fail with the unsupported-network error; identities inside the set
resolve, and the resolutions are pure functions, so repeated resolutions
return identical results. -/
theorem unknown_network_resolutions_fail (pid : String)
    (h : pid ≠ localnet ∧ pid ≠ testnet) :
    (upgradeManagerProgram pid = .error .unsupportedNetwork ∧
     matchingEngineProgram pid = .error .unsupportedNetwork ∧
     coreBridgeProgramId pid = .error .unsupportedNetwork) ∧
    (∀ q : String, q = localnet ∨ q = testnet →
      (upgradeManagerProgram q).isOk ∧
      upgradeManagerProgram q = upgradeManagerProgram q ∧
      (matchingEngineProgram q).isOk ∧
      matchingEngineProgram q = matchingEngineProgram q ∧
      (coreBridgeProgramId q).isOk ∧
      coreBridgeProgramId q = coreBridgeProgramId q) := by
  constructor
  · refine ⟨?_, ?_, ?_⟩ <;>
      simp [upgradeManagerProgram, matchingEngineProgram, coreBridgeProgramId, h.1, h.2]
  · have hne : ¬(localnet = testnet) := by decide
    rintro q (rfl | rfl) <;>
      refine ⟨?_, rfl, ?_, rfl, ?_, rfl⟩ <;>
      simp [upgradeManagerProgram, matchingEngineProgram, coreBridgeProgramId,
        hne, Except.isOk, Except.toBool]

/-- C5 witness: the three resolutions at the concrete unknown identity
`"bogus"` and at the known identities. -/
theorem unknown_network_resolutions_fail_witness :
    ("bogus" ≠ localnet ∧ "bogus" ≠ testnet) ∧
    upgradeManagerProgram "bogus" = .error .unsupportedNetwork ∧
    matchingEngineProgram "bogus" = .error .unsupportedNetwork ∧
    coreBridgeProgramId "bogus" = .error .unsupportedNetwork :=
  ⟨⟨by decide, by decide⟩,
    (unknown_network_resolutions_fail "bogus" ⟨by decide, by decide⟩).1⟩

/-- C7 counterexample: the token-messenger-minter and message-transmitter
program ids are fixed constants, identical for the localnet and testnet
identities, so not every dependent-program id differs between the two
networks. -/
theorem cctp_program_ids_shared_across_networks :
    tokenMessengerMinterProgram localnet = tokenMessengerMinterProgram testnet ∧
    messageTransmitterProgram localnet = messageTransmitterProgram testnet :=
  ⟨rfl, rfl⟩

/-- C7 (amended): switching the program identity between localnet and
testnet switches every network-switched dependent-program id (core bridge,
upgrade manager, matching engine) &mdash; each resolves to a different address
on the two networks. -/
theorem network_switched_ids_differ :
    upgradeManagerProgram localnet ≠ upgradeManagerProgram testnet ∧
    matchingEngineProgram localnet ≠ matchingEngineProgram testnet ∧
    coreBridgeProgramId localnet ≠ coreBridgeProgramId testnet := by
  refine ⟨?_, ?_, ?_⟩
  · intro h
    rw [show upgradeManagerProgram localnet =
          .ok (.base58 "UpgradeManager11111111111111111111111111111") from rfl,
        show upgradeManagerProgram testnet =
          .ok (.base58 "ucdP9ktgrXgEUnn6roqD2SfdGMR2JSiWHUKv23oXwxt") from rfl] at h
    injection h with h1
    injection h1 with h2
    exact absurd h2 (by decide)
  · intro h
    rw [show matchingEngineProgram localnet = .ok matchingEngineLocalnetId from rfl,
        show matchingEngineProgram testnet = .ok matchingEngineTestnetId from rfl,
        matchingEngineLocalnetId, matchingEngineTestnetId] at h
    injection h with h1
    injection h1 with h2
    exact absurd h2 (by decide)
  · intro h
    rw [show coreBridgeProgramId localnet =
          .ok (.base58 "worm2ZoG2kUd4vFXhvjh93UUH596ayRfgQ2MgjNMTth") from rfl,
        show coreBridgeProgramId testnet =
          .ok (.base58 "3u8hJUVTA4jH1wYAyUur7FFZVQ8H635K3tSHHF4ssjQ5") from rfl] at h
    injection h with h1
    injection h1 with h2
    exact absurd h2 (by decide)

/-- C10: `approveTransferAuthorityIx` returns an approve instruction that
delegates exactly `amountIn` tokens of the sender token account to the
computed transfer-authority address, with the delegating owner being the
caller-supplied authority when given and otherwise the fetched owner of
the sender token account. -/
theorem approveTransferAuthority_delegation (programId : String) (chain : Chain)
    (preparedOrder senderToken : Pubkey) (args : PrepareMarketOrderArgs) :
    (∀ a : Pubkey,
      approveTransferAuthorityIx programId chain preparedOrder senderToken (some a) args =
        .ok (transferAuthorityAddress (.base58 programId) preparedOrder args,
          { source := senderToken
            delegate := transferAuthorityAddress (.base58 programId) preparedOrder args
            owner := a
            amount := args.amountIn })) ∧
    (∀ acct : TokenAccount, chain.tokenAccounts senderToken = some acct →
      approveTransferAuthorityIx programId chain preparedOrder senderToken none args =
        .ok (transferAuthorityAddress (.base58 programId) preparedOrder args,
          { source := senderToken
            delegate := transferAuthorityAddress (.base58 programId) preparedOrder args
            owner := acct.owner
            amount := args.amountIn })) := by
  constructor
  · intro a
    rfl
  · intro acct h
    unfold approveTransferAuthorityIx resolveSenderTokenAuthority
    rw [h]
    rfl

/-- A chain state whose token-account lookup finds an account owned by a
fixed key. -/
def chainWithTokenAccount : Chain :=
  { preparedOrders := fun _ => none
    routerEndpoints := fun _ => none
    tokenAccounts := fun _ => some { owner := .base58 "owner" } }

/-- A concrete argument record used by witnesses. -/
def argsExample : PrepareMarketOrderArgs :=
  ⟨1, some 100, 2, List.replicate 32 0, [1, 2, 3]⟩

/-- C10 witness: the fetched-owner branch evaluated on a concrete chain
state. -/
theorem approveTransferAuthority_delegation_witness :
    approveTransferAuthorityIx "p" chainWithTokenAccount (.base58 "order")
        (.base58 "sender-token") none argsExample =
      .ok (transferAuthorityAddress (.base58 "p") (.base58 "order") argsExample,
        { source := .base58 "sender-token"
          delegate := transferAuthorityAddress (.base58 "p") (.base58 "order") argsExample
          owner := .base58 "owner"
          amount := argsExample.amountIn }) :=
  (approveTransferAuthority_delegation "p" chainWithTokenAccount
      (.base58 "order") (.base58 "sender-token") argsExample).2
    { owner := .base58 "owner" } rfl

/-- C8: `closePreparedOrderIx` composes accounts from caller input &mdash; when
all of `preparedBy`/`orderSender`/`refundToken` are supplied the result is
independent of the chain state (no on-chain read) and uses the supplied
values unchanged, and when some are missing exactly those are filled from
the stored fields of the fetched record; `consumePreparedFillIx` requires
all of its accounts from the caller, takes no chain state at all in this
embedding (the source performs no read), and uses the supplied values
unchanged. -/
theorem close_and_consume_account_fallback (programId : String)
    (preparedOrder pb os rt : Pubkey) (info : PreparedOrderInfo) :
    (∀ chain chain2 : Chain,
      closePreparedOrderIx programId chain preparedOrder (some pb) (some os) (some rt) =
        closePreparedOrderIx programId chain2 preparedOrder (some pb) (some os) (some rt)) ∧
    (∀ chain : Chain,
      closePreparedOrderIx programId chain preparedOrder (some pb) (some os) (some rt) =
        .ok { preparedBy := pb
              custodian := checkedCustodianComposite (.base58 programId) none
              orderSender := os
              preparedOrder := preparedOrder
              refundToken := rt
              preparedCustodyToken := preparedCustodyTokenAddress (.base58 programId) preparedOrder
              tokenProgram := TOKEN_PROGRAM_ID }) ∧
    (∀ chain : Chain, chain.preparedOrders preparedOrder = some info →
      ∀ pbIn osIn rtIn : Option Pubkey, (pbIn = none ∨ osIn = none ∨ rtIn = none) →
      closePreparedOrderIx programId chain preparedOrder pbIn osIn rtIn =
        .ok { preparedBy := pbIn.getD info.preparedBy
              custodian := checkedCustodianComposite (.base58 programId) none
              orderSender := osIn.getD info.orderSender
              preparedOrder := preparedOrder
              refundToken := rtIn.getD info.refundToken
              preparedCustodyToken := preparedCustodyTokenAddress (.base58 programId) preparedOrder
              tokenProgram := TOKEN_PROGRAM_ID }) ∧
    (∀ preparedFill redeemer dstToken beneficiary : Pubkey,
      consumePreparedFillIx programId preparedFill redeemer dstToken beneficiary =
        { redeemer := redeemer
          beneficiary := beneficiary
          preparedFill := preparedFill
          dstToken := dstToken
          preparedCustodyToken := preparedCustodyTokenAddress (.base58 programId) preparedFill
          tokenProgram := TOKEN_PROGRAM_ID }) := by
  refine ⟨fun chain chain2 => rfl, fun chain => rfl, ?_, fun a b c d => rfl⟩
  intro chain hchain pbIn osIn rtIn _hmiss
  rcases pbIn with _ | pbv <;> rcases osIn with _ | osv <;> rcases rtIn with _ | rtv <;>
    simp [closePreparedOrderIx, hchain]

/-- A chain state holding one prepared-order record under every address. -/
def chainWithOrder : Chain :=
  { preparedOrders := fun _ =>
      some { preparedBy := .base58 "stored-prepared-by"
             orderSender := .base58 "stored-order-sender"
             refundToken := .base58 "stored-refund-token"
             targetChain := 999 }
    routerEndpoints := fun _ => none
    tokenAccounts := fun _ => none }

/-- C8 witness: with only `preparedBy` supplied, the other two accounts
come from the stored record. -/
theorem close_and_consume_account_fallback_witness :
    closePreparedOrderIx "p" chainWithOrder (.base58 "order")
        (some (.base58 "caller-prepared-by")) none none =
      .ok { preparedBy := .base58 "caller-prepared-by"
            custodian := checkedCustodianComposite (.base58 "p") none
            orderSender := .base58 "stored-order-sender"
            preparedOrder := .base58 "order"
            refundToken := .base58 "stored-refund-token"
            preparedCustodyToken := preparedCustodyTokenAddress (.base58 "p") (.base58 "order")
            tokenProgram := TOKEN_PROGRAM_ID } :=
  (close_and_consume_account_fallback "p" (.base58 "order")
      (.base58 "x") (.base58 "x") (.base58 "x")
      { preparedBy := .base58 "stored-prepared-by"
        orderSender := .base58 "stored-order-sender"
        refundToken := .base58 "stored-refund-token"
        targetChain := 999 }).2.2.1
    chainWithOrder rfl (some (.base58 "caller-prepared-by")) none none
    (Or.inr (Or.inl rfl))

/-- C6: in `prepareMarketOrderIx`, `useTransferAuthority` defaults to true
and `refundToken` defaults to the supplied sender token; with
`useTransferAuthority` true and no explicit `programTransferAuthority`,
the transfer authority is computed by `transferAuthorityAddress` and a
non-null approve instruction for that authority is returned alongside the
prepare instruction; with `useTransferAuthority` false (and no explicit
authority), the `programTransferAuthority` account is explicitly absent
(`none`, not a zero value) and the returned approve instruction is null. -/
theorem prepareMarketOrder_authority_and_defaults
    (programId : String) (mint : Pubkey) (chain : Chain)
    (payer preparedOrder senderToken : Pubkey)
    (senderTokenAuthority refundToken : Option Pubkey)
    (sender : Option (Option Pubkey)) (args : PrepareMarketOrderArgs)
    (owner : Pubkey)
    (howner : resolveSenderTokenAuthority chain senderToken senderTokenAuthority = .ok owner) :
    (∀ pta rt, prepareMarketOrderIx programId mint chain payer preparedOrder senderToken
        senderTokenAuthority rt pta sender none args =
      prepareMarketOrderIx programId mint chain payer preparedOrder senderToken
        senderTokenAuthority rt pta sender (some true) args) ∧
    (∀ pta uta, prepareMarketOrderIx programId mint chain payer preparedOrder senderToken
        senderTokenAuthority none pta sender uta args =
      prepareMarketOrderIx programId mint chain payer preparedOrder senderToken
        senderTokenAuthority (some senderToken) pta sender uta args) ∧
    (prepareMarketOrderIx programId mint chain payer preparedOrder senderToken
        senderTokenAuthority refundToken none sender (some true) args =
      .ok (some { source := senderToken
                  delegate := transferAuthorityAddress (.base58 programId) preparedOrder args
                  owner := owner
                  amount := args.amountIn },
        { accounts :=
            { payer := payer
              custodian := checkedCustodianComposite (.base58 programId) none
              programTransferAuthority :=
                some (transferAuthorityAddress (.base58 programId) preparedOrder args)
              sender := sender.getD none
              preparedOrder := preparedOrder
              senderToken := senderToken
              refundToken := refundToken.getD senderToken
              preparedCustodyToken := preparedCustodyTokenAddress (.base58 programId) preparedOrder
              usdc := mint
              tokenProgram := TOKEN_PROGRAM_ID
              systemProgram := SYSTEM_PROGRAM_ID }
          args := args })) ∧
    (prepareMarketOrderIx programId mint chain payer preparedOrder senderToken
        senderTokenAuthority refundToken none sender (some false) args =
      .ok (none,
        { accounts :=
            { payer := payer
              custodian := checkedCustodianComposite (.base58 programId) none
              programTransferAuthority := none
              sender := sender.getD none
              preparedOrder := preparedOrder
              senderToken := senderToken
              refundToken := refundToken.getD senderToken
              preparedCustodyToken := preparedCustodyTokenAddress (.base58 programId) preparedOrder
              usdc := mint
              tokenProgram := TOKEN_PROGRAM_ID
              systemProgram := SYSTEM_PROGRAM_ID }
          args := args })) := by
  refine ⟨fun pta rt => rfl, fun pta uta => rfl, ?_, rfl⟩
  unfold prepareMarketOrderIx approveTransferAuthorityIx
  rw [howner]
  rfl

/-- C6 witness: the transfer-authority branch evaluated on a concrete chain
state (owner fetched from the token account). -/
theorem prepareMarketOrder_authority_and_defaults_witness :
    prepareMarketOrderIx "p" (.base58 "m") chainWithTokenAccount (.base58 "payer")
        (.base58 "order") (.base58 "sender-token") none none none none (some true)
        argsExample =
      .ok (some { source := .base58 "sender-token"
                  delegate := transferAuthorityAddress (.base58 "p") (.base58 "order") argsExample
                  owner := .base58 "owner"
                  amount := argsExample.amountIn },
        { accounts :=
            { payer := .base58 "payer"
              custodian := checkedCustodianComposite (.base58 "p") none
              programTransferAuthority :=
                some (transferAuthorityAddress (.base58 "p") (.base58 "order") argsExample)
              sender := none
              preparedOrder := .base58 "order"
              senderToken := .base58 "sender-token"
              refundToken := .base58 "sender-token"
              preparedCustodyToken := preparedCustodyTokenAddress (.base58 "p") (.base58 "order")
              usdc := .base58 "m"
              tokenProgram := TOKEN_PROGRAM_ID
              systemProgram := SYSTEM_PROGRAM_ID }
          args := argsExample }) :=
  (prepareMarketOrder_authority_and_defaults "p" (.base58 "m") chainWithTokenAccount
      (.base58 "payer") (.base58 "order") (.base58 "sender-token") none none none
      argsExample (.base58 "owner") rfl).2.2.1

/-- Binding a successful `Except` computation runs its continuation. -/
theorem except_bind_ok {α β : Type} (a : α) (k : α → Except Err β) :
    ((Except.ok a : Except Err α) >>= k) = k a := rfl

/-- Binding a failed `Except` computation propagates the error. -/
theorem except_bind_error {α β : Type} (e : Err) (k : α → Except Err β) :
    ((Except.error e : Except Err α) >>= k) = (Except.error e : Except Err β) := rfl

/-- C3: when `preparedBy` or `targetChain` is not supplied,
`placeMarketOrderCctpIx` fails with the order-not-found error if the
prepared-order record is absent, and with the invalid-target-chain error
if the record is present but its stored `targetChain` is not a recognized
chain id.  The collaborator derivation oracles (`collab`) and the supplied
`routerEndpoint` are universally quantified and the error does not depend
on them: the failure happens before any target-chain-dependent address
derivation, in particular before the router-endpoint address is derived. -/
theorem placeMarketOrder_order_lookup_errors
    (programId : String) (mint : Pubkey) (collab : CollabOracles) (chain : Chain)
    (isChainId : Nat → Bool) (payer preparedOrder : Pubkey)
    (preparedBy routerEndpoint : Option Pubkey)
    (targetChain destinationDomain : Option Nat)
    (hmissing : preparedBy = none ∨ targetChain = none) :
    (chain.preparedOrders preparedOrder = none →
      placeMarketOrderCctpIx programId mint collab chain isChainId payer preparedOrder
        preparedBy routerEndpoint targetChain destinationDomain =
        .error .orderNotFound) ∧
    (∀ info : PreparedOrderInfo, chain.preparedOrders preparedOrder = some info →
      isChainId info.targetChain = false →
      placeMarketOrderCctpIx programId mint collab chain isChainId payer preparedOrder
        preparedBy routerEndpoint targetChain destinationDomain =
        .error .invalidTargetChain) := by
  constructor
  · intro hnone
    have hstep : resolveOrderFields chain isChainId preparedOrder preparedBy targetChain =
        .error .orderNotFound := by
      rcases hmissing with h | h
      · subst h
        cases targetChain <;> simp [resolveOrderFields, hnone]
      · subst h
        cases preparedBy <;> simp [resolveOrderFields, hnone]
    unfold placeMarketOrderCctpIx
    rw [hstep]
    rfl
  · intro info hsome hbad
    have hstep : resolveOrderFields chain isChainId preparedOrder preparedBy targetChain =
        .error .invalidTargetChain := by
      rcases hmissing with h | h
      · subst h
        cases targetChain <;> simp [resolveOrderFields, hsome, hbad]
      · subst h
        cases preparedBy <;> simp [resolveOrderFields, hsome, hbad]
    unfold placeMarketOrderCctpIx
    rw [hstep]
    rfl

/-- Collaborator oracles returning fixed addresses, used by witnesses. -/
def trivialOracles : CollabOracles :=
  { routerEndpointAddress := fun _ _ => .base58 "router-endpoint"
    coreMessageAddress := fun _ _ => .base58 "core-message"
    cctpMessageAddress := fun _ _ => .base58 "cctp-message"
    depositForBurnWithCallerAccounts := fun _ _ =>
      { senderAuthority := .base58 "sender-authority"
        messageTransmitterConfig := .base58 "message-transmitter-config"
        tokenMessenger := .base58 "token-messenger"
        remoteTokenMessenger := .base58 "remote-token-messenger"
        tokenMinter := .base58 "token-minter"
        localToken := .base58 "local-token"
        tokenMessengerMinterEventAuthority := .base58 "tmm-event-authority"
        messageTransmitterProgram := .base58 "message-transmitter-program"
        tokenMessengerMinterProgram := .base58 "tmm-program" } }

/-- C3 witness: with neither `preparedBy` nor `targetChain` supplied and a
stored record whose chain id 999 is not recognized, the call fails with
the invalid-target-chain error. -/
theorem placeMarketOrder_order_lookup_errors_witness :
    placeMarketOrderCctpIx "p" (.base58 "m") trivialOracles chainWithOrder
        (fun _ => false) (.base58 "payer") (.base58 "order") none none none none =
      .error .invalidTargetChain :=
  (placeMarketOrder_order_lookup_errors "p" (.base58 "m") trivialOracles chainWithOrder
      (fun _ => false) (.base58 "payer") (.base58 "order") none none none none
      (Or.inl rfl)).2
    { preparedBy := .base58 "stored-prepared-by"
      orderSender := .base58 "stored-order-sender"
      refundToken := .base58 "stored-refund-token"
      targetChain := 999 } rfl rfl

/-- C4: the destination domain used to compose the burn accounts of
`placeMarketOrderCctpIx` is the caller-supplied value when one is given;
otherwise it is the CCTP domain read from the router endpoint's protocol
info, and if that protocol is not the CCTP variant the call fails with the
invalid-router-endpoint error (no account set &mdash; in particular no burn
account set &mdash; is returned). -/
theorem placeMarketOrder_destination_domain
    (programId : String) (mint : Pubkey) (collab : CollabOracles) (chain : Chain)
    (isChainId : Nat → Bool) (payer preparedOrder : Pubkey)
    (preparedByIn routerEndpointIn : Option Pubkey)
    (targetChainIn destinationDomain : Option Nat)
    (preparedBy : Pubkey) (targetChain : Nat) (engine : Pubkey)
    (hstep : resolveOrderFields chain isChainId preparedOrder preparedByIn targetChainIn =
      .ok (preparedBy, targetChain))
    (hengine : matchingEngineProgram programId = .ok engine) :
    (∀ d : Nat, destinationDomain = some d →
      ∀ acc : PlaceMarketOrderCctpAccounts,
        placeMarketOrderCctpIx programId mint collab chain isChainId payer preparedOrder
          preparedByIn routerEndpointIn targetChainIn destinationDomain = .ok acc →
        burnPart acc = collab.depositForBurnWithCallerAccounts mint d) ∧
    (destinationDomain = none →
      (∀ dom : Nat,
        chain.routerEndpoints
            (routerEndpointIn.getD (collab.routerEndpointAddress engine targetChain)) =
          some { protocol := EndpointProtocol.cctp dom } →
        ∀ acc : PlaceMarketOrderCctpAccounts,
          placeMarketOrderCctpIx programId mint collab chain isChainId payer preparedOrder
            preparedByIn routerEndpointIn targetChainIn destinationDomain = .ok acc →
          burnPart acc = collab.depositForBurnWithCallerAccounts mint dom) ∧
      (∀ info : RouterEndpointInfo,
        chain.routerEndpoints
            (routerEndpointIn.getD (collab.routerEndpointAddress engine targetChain)) =
          some info →
        (∀ dom : Nat, info.protocol ≠ EndpointProtocol.cctp dom) →
        placeMarketOrderCctpIx programId mint collab chain isChainId payer preparedOrder
          preparedByIn routerEndpointIn targetChainIn destinationDomain =
          .error .invalidRouterEndpoint)) := by
  constructor
  · rintro d rfl acc hacc
    cases hpub : publishMessageAccounts programId (custodianAddress (.base58 programId)) with
    | error e =>
      simp only [placeMarketOrderCctpIx, hstep, hengine, hpub, resolveDestinationDomain,
        except_bind_ok, except_bind_error] at hacc
      exact Except.noConfusion hacc
    | ok pub =>
      simp only [placeMarketOrderCctpIx, hstep, hengine, hpub, resolveDestinationDomain,
        except_bind_ok] at hacc
      injection hacc with h2
      subst h2
      rfl
  · rintro rfl
    constructor
    · intro dom hre acc hacc
      cases hpub : publishMessageAccounts programId (custodianAddress (.base58 programId)) with
      | error e =>
        simp only [placeMarketOrderCctpIx, hstep, hengine, hpub, resolveDestinationDomain,
          hre, except_bind_ok, except_bind_error] at hacc
        exact Except.noConfusion hacc
      | ok pub =>
        simp only [placeMarketOrderCctpIx, hstep, hengine, hpub, resolveDestinationDomain,
          hre, except_bind_ok] at hacc
        injection hacc with h2
        subst h2
        rfl
    · intro info hre hnc
      cases hp : info.protocol with
      | cctp dom => exact absurd hp (hnc dom)
      | other =>
        have hdd : resolveDestinationDomain chain
            (routerEndpointIn.getD (collab.routerEndpointAddress engine targetChain)) none =
            .error .invalidRouterEndpoint := by
          simp [resolveDestinationDomain, hre, hp]
        simp only [placeMarketOrderCctpIx, hstep, hengine, hdd,
          except_bind_ok, except_bind_error]

/-- A chain state whose router-endpoint lookup finds a record with a
non-CCTP protocol variant. -/
def chainBadEndpoint : Chain :=
  { preparedOrders := fun _ => none
    routerEndpoints := fun _ => some { protocol := .other }
    tokenAccounts := fun _ => none }

/-- C4 witness: destination domain not supplied and the router endpoint's
protocol not the CCTP variant, so the call fails with the
invalid-router-endpoint error. -/
theorem placeMarketOrder_destination_domain_witness :
    placeMarketOrderCctpIx localnet (.base58 "m") trivialOracles chainBadEndpoint
        (fun _ => true) (.base58 "payer") (.base58 "order")
        (some (.base58 "pb")) none (some 2) none =
      .error .invalidRouterEndpoint :=
  ((placeMarketOrder_destination_domain localnet (.base58 "m") trivialOracles
        chainBadEndpoint (fun _ => true) (.base58 "payer") (.base58 "order")
        (some (.base58 "pb")) none (some 2) none
        (.base58 "pb") 2 matchingEngineLocalnetId rfl rfl).2 rfl).2
    { protocol := .other } rfl (fun _ h => EndpointProtocol.noConfusion h)

end TokenRouter
